import Mathlib

/-!
Verification of the frame distribution subsystem of the ipdisp driver
(src/kernel/ipdisp.h, ipdisp_network.c, ipdisp_drm.c, ipdisp_encoder.c).

The wire codec, the client registry, the accept loop and the broadcast
dispatcher are embedded shallowly: network and allocation outcomes appear
as explicit parameters (return value of kernel_sendmsg per client, success
of kernel_getpeername / kzalloc), and the mutable device state becomes an
explicit record threaded through each operation.
-/

namespace Ipdisp

/-! ## Protocol constants (src/kernel/ipdisp.h lines 53-62) -/

def IPDISP_DEFAULT_WIDTH : Nat := 1920

def IPDISP_DEFAULT_HEIGHT : Nat := 1080

def IPDISP_MAX_CLIENTS : Nat := 4

def IPDISP_MAGIC : Nat := 0x49504453

def IPDISP_VERSION : Nat := 1

def IPDISP_HEADER_SIZE : Nat := 32

/-- Frame formats (enum ipdisp_format): RGBA32 = 0. -/
def IPDISP_FORMAT_RGBA32 : Nat := 0

/-! ## Wire codec

`struct ipdisp_packet_header` (ipdisp.h lines 73-82) is `__packed`: its wire
image is the fields in declaration order, each u32 occupying 4 bytes and the
u64 timestamp 8 bytes.  Every field is stored via cpu_to_be32/cpu_to_be64
(or is the constant 0, whose byte image is endian independent), so the wire
bytes of each field are its big-endian encoding. -/

/-- Big-endian byte image of a 32-bit value (cpu_to_be32 inside a __packed u32). -/
def be32 (n : Nat) : List Nat :=
  [n / 2 ^ 24 % 256, n / 2 ^ 16 % 256, n / 2 ^ 8 % 256, n % 256]

/-- Big-endian byte image of a 64-bit value (cpu_to_be64 inside a __packed u64). -/
def be64 (n : Nat) : List Nat :=
  [n / 2 ^ 56 % 256, n / 2 ^ 48 % 256, n / 2 ^ 40 % 256, n / 2 ^ 32 % 256,
   n / 2 ^ 24 % 256, n / 2 ^ 16 % 256, n / 2 ^ 8 % 256, n % 256]

/-- struct ipdisp_packet_header (ipdisp.h lines 73-82).  Field values are the
host-order quantities the driver assigns before byte swapping. -/
structure PacketHeader where
  magic : Nat
  version : Nat
  width : Nat
  height : Nat
  format : Nat
  timestamp : Nat
  size : Nat
  reserved : Nat
deriving Repr, DecidableEq

/-- Wire image of a packet header: the `__packed` struct as sent by
kernel_sendmsg, fields in declaration order, each in big-endian byte order. -/
def encodeHeader (h : PacketHeader) : List Nat :=
  be32 h.magic ++ be32 h.version ++ be32 h.width ++ be32 h.height ++
  be32 h.format ++ be64 h.timestamp ++ be32 h.size ++ be32 h.reserved

/-- Header built by ipdisp_network_send_display_info (ipdisp_network.c lines
105-114): magic, version, device width/height, RGBA32 format, timestamp,
size = 0 (no data payload for info packet), reserved = 0. -/
def mkDisplayInfoHeader (width height timestamp : Nat) : PacketHeader :=
  { magic := IPDISP_MAGIC, version := IPDISP_VERSION, width := width,
    height := height, format := IPDISP_FORMAT_RGBA32, timestamp := timestamp,
    size := 0, reserved := 0 }

/-- Header built by ipdisp_network_send_frame (ipdisp_network.c lines
169-178): same fields, but size = payload byte count. -/
def mkFrameHeader (width height timestamp size : Nat) : PacketHeader :=
  { magic := IPDISP_MAGIC, version := IPDISP_VERSION, width := width,
    height := height, format := IPDISP_FORMAT_RGBA32, timestamp := timestamp,
    size := size, reserved := 0 }

/-- Bytes transmitted for the greeting: the header alone, one iovec, no
payload (ipdisp_network.c lines 117-124). -/
def greetingBytes (width height timestamp : Nat) : List Nat :=
  encodeHeader (mkDisplayInfoHeader width height timestamp)

/-- Bytes transmitted for one frame packet: header iovec followed by the
payload iovec, no padding (ipdisp_network.c lines 181-184). -/
def frameBytes (width height timestamp : Nat) (data : List Nat) : List Nat :=
  encodeHeader (mkFrameHeader width height timestamp data.length) ++ data

/-- Big-endian read of `n` bytes at offset `off`. -/
def readBE (bytes : List Nat) (off n : Nat) : Nat :=
  ((bytes.drop off).take n).foldl (fun acc b => acc * 256 + b) 0

/-- Modelled from the spec: the decoder is absent from src/ (the spec states
decode "is not exercised by this core ... but must exist symmetrically for
testability", failing on undersized buffers with a ProtocolError).  It reads
the fields back at the offsets of the `__packed` struct, in big-endian order,
and fails (`none`) when the buffer is shorter than the header. -/
def decodeHeader (bytes : List Nat) : Option PacketHeader :=
  if bytes.length < 36 then
    none
  else
    some { magic := readBE bytes 0 4, version := readBE bytes 4 4,
           width := readBE bytes 8 4, height := readBE bytes 12 4,
           format := readBE bytes 16 4, timestamp := readBE bytes 20 8,
           size := readBE bytes 28 4, reserved := readBE bytes 32 4 }

/-! ## Client registry and network state

`struct ipdisp_client` (ipdisp.h lines 85-91) carries the socket, the peer
address, the list link and the active flag.  The socket pointer is abstracted
to a numeric identifier; released sockets (sock_release) are recorded so that
"the connection is closed" is a provable fact about the state. -/

/-- One accepted connection (struct ipdisp_client). -/
structure Client where
  sockId : Nat
  active : Bool
deriving Repr, DecidableEq

/-- The network-visible part of struct ipdisp_device: the client list
(idev->clients) plus the multiset of sockets released so far. -/
structure NetState where
  clients : List Client
  released : List Nat
deriving Repr, DecidableEq

/-- Number of registry entries with active == true (the count computed at
ipdisp_network.c lines 54-59). -/
def activeCount (cs : List Client) : Nat :=
  (cs.filter (fun c => c.active)).length

/-- ipdisp_network_cleanup_clients (ipdisp_network.c lines 136-154): remove
every entry with active == false from the list and sock_release its socket. -/
def ipdisp_network_cleanup_clients (s : NetState) : NetState :=
  { clients := s.clients.filter (fun c => c.active),
    released := s.released ++
      (s.clients.filter (fun c => !c.active)).map (fun c => c.sockId) }

/-- ipdisp_network_send_display_info (ipdisp_network.c lines 97-133):
builds the greeting header, sends it under the client lock, and mutates
neither the client nor the registry.  `sendRet` is kernel_sendmsg's return;
the function returns 0 when the whole header was transferred, the negative
error when sendRet < 0, and -EIO (= -5) on a short transfer. -/
def ipdisp_network_send_display_info (width height timestamp : Nat)
    (sendRet : Int) : Int :=
  if sendRet = ((greetingBytes width height timestamp).length : Int) then 0
  else if sendRet < 0 then sendRet
  else -5

/-- Outcome of one accept-loop iteration: the new state, and the socket id a
greeting was sent to (ipdisp_network_send_display_info call), if any. -/
structure AcceptResult where
  state : NetState
  greetedTo : Option Nat
deriving Repr, DecidableEq

/-- One iteration of the accept-loop body after kernel_accept succeeded on a
fresh socket `sid` (ipdisp_network.c lines 39-89).  `peerOk` is the success
of kernel_getpeername, `allocOk` of kzalloc, and `greetRet` kernel_sendmsg's
return for the greeting; the greeting outcome has no effect on the state
(ipdisp_network_send_display_info's return value is ignored at line 86).
Failure paths release the socket and touch nothing else; admission appends an
active entry, sends the greeting, then runs cleanup. -/
def acceptIteration (s : NetState) (sid : Nat) (peerOk allocOk : Bool)
    (greetRet : Int) : AcceptResult :=
  if !peerOk then
    { state := { s with released := s.released ++ [sid] }, greetedTo := none }
  else if IPDISP_MAX_CLIENTS ≤ activeCount s.clients then
    { state := { s with released := s.released ++ [sid] }, greetedTo := none }
  else if !allocOk then
    { state := { s with released := s.released ++ [sid] }, greetedTo := none }
  else
    { state := ipdisp_network_cleanup_clients
        { s with clients := s.clients ++ [{ sockId := sid, active := true }] },
      greetedTo := some sid }

/-- Outcome of one broadcast cycle (ipdisp_network_send_frame): the new
state, the number of complete sends, whether stream work was rescheduled
(schedule_work at line 217), and the bytes each active client actually
received (prefix of the message of length kernel_sendmsg's return). -/
structure SendFrameResult where
  state : NetState
  clientsSent : Nat
  rescheduled : Bool
  deliveries : List (Nat × List Nat)
deriving Repr, DecidableEq

/-- ipdisp_network_send_frame (ipdisp_network.c lines 157-221).  `sendRet`
gives kernel_sendmsg's return value for each client's socket this cycle.
Empty registry: return 0 at once (line 166).  Otherwise build one header,
send header+payload to every active entry; a negative return or a count
other than sizeof(header)+size marks that entry inactive; if no send
completed, schedule the stream work again. -/
def ipdisp_network_send_frame (width height timestamp : Nat) (s : NetState)
    (data : List Nat) (sendRet : Nat → Int) : SendFrameResult :=
  if s.clients = [] then
    { state := s, clientsSent := 0, rescheduled := false, deliveries := [] }
  else
    let msg := frameBytes width height timestamp data
    let total : Int := (msg.length : Int)
    { state :=
        { s with clients := s.clients.map (fun c =>
            if !c.active then c
            else if sendRet c.sockId < 0 then { c with active := false }
            else if sendRet c.sockId ≠ total then { c with active := false }
            else c) },
      clientsSent :=
        (s.clients.filter (fun c => c.active ∧ sendRet c.sockId = total)).length,
      rescheduled :=
        (s.clients.filter (fun c => c.active ∧ sendRet c.sockId = total)).length = 0,
      deliveries := s.clients.filterMap (fun c =>
        if c.active then
          some (c.sockId, msg.take (sendRet c.sockId).toNat)
        else none) }

/-! ## Steps and reachable states -/

/-- The operations that mutate the registry during the server's life. -/
inductive NetOp : Type where
  | accept (sid : Nat) (peerOk allocOk : Bool) (greetRet : Int)
  | sendFrame (width height timestamp : Nat) (data : List Nat)
      (sendRet : Nat → Int)
  | cleanup

/-- Effect of one operation on the network state. -/
def applyOp : NetOp → NetState → NetState
  | NetOp.accept sid p a g, s => (acceptIteration s sid p a g).state
  | NetOp.sendFrame w h t d r, s => (ipdisp_network_send_frame w h t s d r).state
  | NetOp.cleanup, s => ipdisp_network_cleanup_clients s

/-- States reachable from the freshly initialized device (INIT_LIST_HEAD:
empty client list, ipdisp_main.c line 76). -/
inductive Reach : NetState → Prop where
  | init : Reach { clients := [], released := [] }
  | step (op : NetOp) {s : NetState} : Reach s → Reach (applyOp op s)

/-! ## Frame store copy (ipdisp_pipe_update) -/

/-- The copy at ipdisp_drm.c lines 176-189: copy_size is the smaller of the
device framebuffer capacity and the incoming plane buffer size
(fb->height * fb->pitches[0]); memcpy overwrites the first copy_size bytes
of the device framebuffer with those of the source. -/
def ipdisp_pipe_update (framebuffer src : List Nat) : List Nat :=
  let copy_size := min framebuffer.length src.length
  src.take copy_size ++ framebuffer.drop copy_size

/-! ## Codec lemmas -/

theorem encodeHeader_length (hdr : PacketHeader) :
    (encodeHeader hdr).length = 36 := by
  simp [encodeHeader, be32, be64]

set_option maxRecDepth 4000 in
/-- Reading each header field back at its wire offset recovers the value
assigned before byte swapping, provided it fits its field width. -/
theorem readBE_encodeHeader (m v w h f t sz r : Nat) (p : List Nat)
    (h1 : m < 2 ^ 32) (h2 : v < 2 ^ 32) (h3 : w < 2 ^ 32) (h4 : h < 2 ^ 32)
    (h5 : f < 2 ^ 32) (h6 : t < 2 ^ 64) (h7 : sz < 2 ^ 32) (h8 : r < 2 ^ 32) :
    readBE (encodeHeader ⟨m, v, w, h, f, t, sz, r⟩ ++ p) 0 4 = m ∧
    readBE (encodeHeader ⟨m, v, w, h, f, t, sz, r⟩ ++ p) 4 4 = v ∧
    readBE (encodeHeader ⟨m, v, w, h, f, t, sz, r⟩ ++ p) 8 4 = w ∧
    readBE (encodeHeader ⟨m, v, w, h, f, t, sz, r⟩ ++ p) 12 4 = h ∧
    readBE (encodeHeader ⟨m, v, w, h, f, t, sz, r⟩ ++ p) 16 4 = f ∧
    readBE (encodeHeader ⟨m, v, w, h, f, t, sz, r⟩ ++ p) 20 8 = t ∧
    readBE (encodeHeader ⟨m, v, w, h, f, t, sz, r⟩ ++ p) 28 4 = sz ∧
    readBE (encodeHeader ⟨m, v, w, h, f, t, sz, r⟩ ++ p) 32 4 = r := by
  refine ⟨?_, ?_, ?_, ?_, ?_, ?_, ?_, ?_⟩ <;>
    (simp [readBE, encodeHeader, be32, be64]; omega)

/-! ## Claim theorems -/

/-- C1: the claim states the encoded packet header is exactly 32 bytes long;
the driver defines IPDISP_HEADER_SIZE = 32, yet the `__packed` struct it
actually transmits (for the greeting and for every frame packet alike) is 36
bytes: five u32 fields, one u64 and two trailing u32 fields.  The code
contradicts its own header-size constant. -/
theorem header_wire_size_contradicts_constant :
    (∀ w h t, (greetingBytes w h t).length = 36) ∧
    (∀ w h t d, (frameBytes w h t d).length = 36 + d.length) ∧
    IPDISP_HEADER_SIZE = 32 ∧
    (greetingBytes 1920 1080 0).length ≠ IPDISP_HEADER_SIZE := by
  refine ⟨fun w h t => ?_, fun w h t d => ?_, rfl, by decide⟩
  · simp [greetingBytes, encodeHeader_length]
  · simp [frameBytes, encodeHeader_length]

/-- C6: the greeting packet built for a newly admitted client carries the
protocol magic and version, the device width and height, format RGBA32 = 0
and size 0 in its wire fields, and consists of the header bytes alone (no
payload follows). -/
theorem greeting_packet_contents (w h t : Nat)
    (hw : w < 2 ^ 32) (hh : h < 2 ^ 32) (ht : t < 2 ^ 64) :
    readBE (greetingBytes w h t) 0 4 = IPDISP_MAGIC ∧
    readBE (greetingBytes w h t) 4 4 = IPDISP_VERSION ∧
    readBE (greetingBytes w h t) 8 4 = w ∧
    readBE (greetingBytes w h t) 12 4 = h ∧
    readBE (greetingBytes w h t) 16 4 = IPDISP_FORMAT_RGBA32 ∧
    readBE (greetingBytes w h t) 28 4 = 0 ∧
    (greetingBytes w h t).length = (encodeHeader (mkDisplayInfoHeader w h t)).length := by
  have hfields := readBE_encodeHeader IPDISP_MAGIC IPDISP_VERSION w h
    IPDISP_FORMAT_RGBA32 t 0 0 [] (by decide) (by decide) hw hh (by decide)
    ht (by decide) (by decide)
  simp only [List.append_nil] at hfields
  simp only [greetingBytes, mkDisplayInfoHeader]
  exact ⟨hfields.1, hfields.2.1, hfields.2.2.1, hfields.2.2.2.1,
    hfields.2.2.2.2.1, hfields.2.2.2.2.2.2.1, trivial⟩

/-- Witness for C6 at the default 1920x1080 geometry. -/
theorem greeting_packet_contents_witness :
    readBE (greetingBytes 1920 1080 987654321) 0 4 = IPDISP_MAGIC ∧
    readBE (greetingBytes 1920 1080 987654321) 4 4 = IPDISP_VERSION ∧
    readBE (greetingBytes 1920 1080 987654321) 8 4 = 1920 ∧
    readBE (greetingBytes 1920 1080 987654321) 12 4 = 1080 ∧
    readBE (greetingBytes 1920 1080 987654321) 16 4 = IPDISP_FORMAT_RGBA32 ∧
    readBE (greetingBytes 1920 1080 987654321) 28 4 = 0 ∧
    (greetingBytes 1920 1080 987654321).length =
      (encodeHeader (mkDisplayInfoHeader 1920 1080 987654321)).length :=
  greeting_packet_contents 1920 1080 987654321 (by decide) (by decide) (by decide)

set_option maxRecDepth 4000 in
/-- C8: decoding the bytes produced by encoding a header recovers every field,
with or without a trailing payload, for all field values that fit their wire
widths. -/
theorem decode_encode_roundtrip (hdr : PacketHeader) (payload : List Nat)
    (h1 : hdr.magic < 2 ^ 32) (h2 : hdr.version < 2 ^ 32)
    (h3 : hdr.width < 2 ^ 32) (h4 : hdr.height < 2 ^ 32)
    (h5 : hdr.format < 2 ^ 32) (h6 : hdr.timestamp < 2 ^ 64)
    (h7 : hdr.size < 2 ^ 32) (h8 : hdr.reserved < 2 ^ 32) :
    decodeHeader (encodeHeader hdr ++ payload) = some hdr := by
  obtain ⟨m, v, w, h, f, t, sz, r⟩ := hdr
  simp only at h1 h2 h3 h4 h5 h6 h7 h8
  have hfields := readBE_encodeHeader m v w h f t sz r payload
    h1 h2 h3 h4 h5 h6 h7 h8
  have hlen : (encodeHeader ⟨m, v, w, h, f, t, sz, r⟩ ++ payload).length
      = 36 + payload.length := by
    simp [encodeHeader_length]
  rw [decodeHeader, if_neg (by omega)]
  simp only [Option.some.injEq, PacketHeader.mk.injEq]
  exact ⟨hfields.1, hfields.2.1, hfields.2.2.1, hfields.2.2.2.1,
    hfields.2.2.2.2.1, hfields.2.2.2.2.2.1, hfields.2.2.2.2.2.2.1,
    hfields.2.2.2.2.2.2.2⟩

/-- Witness for C8: a greeting header (size 0, no payload) and a frame header
(size 8294400 with a payload) both round-trip. -/
theorem decode_encode_roundtrip_witness :
    decodeHeader (encodeHeader (mkDisplayInfoHeader 1920 1080 123456789) ++ [])
      = some (mkDisplayInfoHeader 1920 1080 123456789) ∧
    decodeHeader (encodeHeader (mkFrameHeader 1920 1080 123456789 8294400) ++ [7, 8, 9])
      = some (mkFrameHeader 1920 1080 123456789 8294400) :=
  ⟨decode_encode_roundtrip (mkDisplayInfoHeader 1920 1080 123456789) []
      (by decide) (by decide) (by decide) (by decide) (by decide) (by decide)
      (by decide) (by decide),
   decode_encode_roundtrip (mkFrameHeader 1920 1080 123456789 8294400) [7, 8, 9]
      (by decide) (by decide) (by decide) (by decide) (by decide) (by decide)
      (by decide) (by decide)⟩

/-! ## Registry lemmas -/

theorem activeCount_cons (c : Client) (cs : List Client) :
    activeCount (c :: cs) = (if c.active then 1 else 0) + activeCount cs := by
  by_cases h : c.active <;> simp [activeCount, List.filter_cons, h] <;> omega

theorem activeCount_append (cs ds : List Client) :
    activeCount (cs ++ ds) = activeCount cs + activeCount ds := by
  simp [activeCount]

theorem activeCount_filter_self (cs : List Client) :
    activeCount (cs.filter (fun c => c.active)) = activeCount cs := by
  simp [activeCount, List.filter_filter]

theorem activeCount_map_le (cs : List Client) (f : Client → Client)
    (hf : ∀ c, (f c).active = true → c.active = true) :
    activeCount (cs.map f) ≤ activeCount cs := by
  induction cs with
  | nil => simp [activeCount]
  | cons c cs ih =>
    rw [List.map_cons, activeCount_cons, activeCount_cons]
    by_cases h : (f c).active
    · rw [if_pos h, if_pos (hf c h)]
      omega
    · rw [if_neg h]
      split <;> omega

/-- Every operation keeps the active-entry count within the bound. -/
theorem activeCount_applyOp_le (op : NetOp) (s : NetState)
    (hle : activeCount s.clients ≤ IPDISP_MAX_CLIENTS) :
    activeCount (applyOp op s).clients ≤ IPDISP_MAX_CLIENTS := by
  cases op with
  | accept sid p a g =>
    simp only [applyOp, acceptIteration]
    split_ifs with h1 h2 h3
    · exact hle
    · exact hle
    · exact hle
    · simp only [not_le] at h2
      simp only [ipdisp_network_cleanup_clients, activeCount_filter_self,
        activeCount_append, activeCount_cons]
      simp [activeCount] at h2 ⊢
      omega
  | sendFrame w h t d r =>
    simp only [applyOp, ipdisp_network_send_frame]
    split
    · exact hle
    · refine le_trans (activeCount_map_le _ _ ?_) hle
      intro c hc
      by_cases hca : c.active
      · exact hca
      · simp [hca] at hc
  | cleanup =>
    simpa [applyOp, ipdisp_network_cleanup_clients, activeCount_filter_self]
      using hle

/-- C2: in every reachable registry state at most IPDISP_MAX_CLIENTS = 4
entries are active, and an admission attempt arriving when 4 entries are
already active is rejected: the new socket is released, no entry is added
and no greeting is sent. -/
theorem active_clients_bounded :
    (∀ s : NetState, Reach s → activeCount s.clients ≤ IPDISP_MAX_CLIENTS) ∧
    (∀ (s : NetState) (sid : Nat) (allocOk : Bool) (greetRet : Int),
      activeCount s.clients = IPDISP_MAX_CLIENTS →
      acceptIteration s sid true allocOk greetRet =
        { state := { s with released := s.released ++ [sid] },
          greetedTo := none }) := by
  constructor
  · intro s hs
    induction hs with
    | init => decide
    | step op hs ih => exact activeCount_applyOp_le op _ ih
  · intro s sid allocOk greetRet hfull
    simp [acceptIteration, hfull]

/-- Witness for C2: the initial state satisfies the bound, and a 5th
connection arriving while 4 clients are active is turned away with its
socket released. -/
theorem active_clients_bounded_witness :
    activeCount (NetState.mk [] []).clients ≤ IPDISP_MAX_CLIENTS ∧
    acceptIteration
        (NetState.mk [⟨1, true⟩, ⟨2, true⟩, ⟨3, true⟩, ⟨4, true⟩] []) 5 true
        true 0 =
      { state := NetState.mk [⟨1, true⟩, ⟨2, true⟩, ⟨3, true⟩, ⟨4, true⟩] [5],
        greetedTo := none } :=
  ⟨active_clients_bounded.1 (NetState.mk [] []) Reach.init,
   active_clients_bounded.2
     (NetState.mk [⟨1, true⟩, ⟨2, true⟩, ⟨3, true⟩, ⟨4, true⟩] []) 5 true 0
     (by decide)⟩

/-! ## Broadcast-cycle lemmas -/

theorem sendFrame_mem_demoted (w h t : Nat) (d : List Nat) (r : Nat → Int)
    (s : NetState) (c : Client) (hc : c ∈ s.clients) (hact : c.active = true)
    (hfail : r c.sockId ≠ ((frameBytes w h t d).length : Int)) :
    { c with active := false } ∈
      (ipdisp_network_send_frame w h t s d r).state.clients := by
  have hne : s.clients ≠ [] := by
    intro h
    rw [h] at hc
    simp at hc
  simp only [ipdisp_network_send_frame, if_neg hne]
  refine List.mem_map.2 ⟨c, hc, ?_⟩
  by_cases hlt : r c.sockId < 0
  · simp [hact, hlt]
  · simp [hact, hlt, hfail]

theorem sendFrame_mem_kept (w h t : Nat) (d : List Nat) (r : Nat → Int)
    (s : NetState) (c : Client) (hc : c ∈ s.clients) (hact : c.active = true)
    (hsucc : r c.sockId = ((frameBytes w h t d).length : Int)) :
    c ∈ (ipdisp_network_send_frame w h t s d r).state.clients := by
  have hne : s.clients ≠ [] := by
    intro h
    rw [h] at hc
    simp at hc
  simp only [ipdisp_network_send_frame, if_neg hne]
  refine List.mem_map.2 ⟨c, hc, ?_⟩
  have hge : ¬ r c.sockId < 0 := by
    rw [hsucc]
    omega
  simp [hact, hge, hsucc]

theorem sendFrame_mem_inactive_kept (w h t : Nat) (d : List Nat)
    (r : Nat → Int) (s : NetState) (c : Client) (hc : c ∈ s.clients)
    (hact : c.active = false) :
    c ∈ (ipdisp_network_send_frame w h t s d r).state.clients := by
  have hne : s.clients ≠ [] := by
    intro h
    rw [h] at hc
    simp at hc
  simp only [ipdisp_network_send_frame, if_neg hne]
  exact List.mem_map.2 ⟨c, hc, by simp [hact]⟩

theorem sendFrame_delivery (w h t : Nat) (d : List Nat) (r : Nat → Int)
    (s : NetState) (c : Client) (hc : c ∈ s.clients) (hact : c.active = true) :
    (c.sockId, (frameBytes w h t d).take (r c.sockId).toNat) ∈
      (ipdisp_network_send_frame w h t s d r).deliveries := by
  have hne : s.clients ≠ [] := by
    intro h
    rw [h] at hc
    simp at hc
  simp only [ipdisp_network_send_frame, if_neg hne]
  exact List.mem_filterMap.2 ⟨c, hc, by simp [hact]⟩

/-- C3: within one broadcast cycle, an active client whose send errors or
transfers fewer than header+payload bytes is marked inactive, while every
active client whose own send completes keeps its entry unchanged and
receives the complete header-plus-payload byte string; a send is attempted
for every active client, so one failure never cuts the cycle short. -/
theorem send_failure_isolated (w h t : Nat) (d : List Nat) (s : NetState)
    (r : Nat → Int) :
    (∀ c ∈ s.clients, c.active = true →
      (r c.sockId < 0 ∨ r c.sockId ≠ ((frameBytes w h t d).length : Int)) →
      { c with active := false } ∈
        (ipdisp_network_send_frame w h t s d r).state.clients) ∧
    (∀ c ∈ s.clients, c.active = true →
      r c.sockId = ((frameBytes w h t d).length : Int) →
      c ∈ (ipdisp_network_send_frame w h t s d r).state.clients ∧
      (c.sockId, frameBytes w h t d) ∈
        (ipdisp_network_send_frame w h t s d r).deliveries) ∧
    (∀ c ∈ s.clients, c.active = true → ∃ bs,
      (c.sockId, bs) ∈ (ipdisp_network_send_frame w h t s d r).deliveries) := by
  refine ⟨fun c hc hact hfail => ?_, fun c hc hact hsucc => ⟨?_, ?_⟩,
    fun c hc hact => ⟨_, sendFrame_delivery w h t d r s c hc hact⟩⟩
  · refine sendFrame_mem_demoted w h t d r s c hc hact ?_
    rcases hfail with h | h
    · omega
    · exact h
  · exact sendFrame_mem_kept w h t d r s c hc hact hsucc
  · have := sendFrame_delivery w h t d r s c hc hact
    rwa [hsucc, Int.toNat_natCast, List.take_length] at this

/-- Witness for C3: three clients, the middle one's send fails; it is
demoted while the others receive the whole 38-byte message. -/
theorem send_failure_isolated_witness :
    Client.mk 2 false ∈
      (ipdisp_network_send_frame 4 4 0
        (NetState.mk [⟨1, true⟩, ⟨2, true⟩, ⟨3, true⟩] []) [9, 9]
        (fun i => if i = 2 then -32 else 38)).state.clients ∧
    Client.mk 3 true ∈
      (ipdisp_network_send_frame 4 4 0
        (NetState.mk [⟨1, true⟩, ⟨2, true⟩, ⟨3, true⟩] []) [9, 9]
        (fun i => if i = 2 then -32 else 38)).state.clients ∧
    (3, frameBytes 4 4 0 [9, 9]) ∈
      (ipdisp_network_send_frame 4 4 0
        (NetState.mk [⟨1, true⟩, ⟨2, true⟩, ⟨3, true⟩] []) [9, 9]
        (fun i => if i = 2 then -32 else 38)).deliveries :=
  ⟨(send_failure_isolated 4 4 0 [9, 9]
      (NetState.mk [⟨1, true⟩, ⟨2, true⟩, ⟨3, true⟩] [])
      (fun i => if i = 2 then -32 else 38)).1
      ⟨2, true⟩ (by decide) (by decide) (Or.inl (by decide)),
   ((send_failure_isolated 4 4 0 [9, 9]
      (NetState.mk [⟨1, true⟩, ⟨2, true⟩, ⟨3, true⟩] [])
      (fun i => if i = 2 then -32 else 38)).2.1
      ⟨3, true⟩ (by decide) (by decide) (by decide)).1,
   ((send_failure_isolated 4 4 0 [9, 9]
      (NetState.mk [⟨1, true⟩, ⟨2, true⟩, ⟨3, true⟩] [])
      (fun i => if i = 2 then -32 else 38)).2.1
      ⟨3, true⟩ (by decide) (by decide) (by decide)).2⟩

/-- C5: a broadcast cycle over an empty registry returns at once, changing
nothing, sending nothing and scheduling nothing; over a non-empty registry
the stream work is rescheduled exactly when no send completed. -/
theorem broadcast_empty_noop_retrigger (w h t : Nat) (d : List Nat)
    (r : Nat → Int) (s : NetState) :
    (s.clients = [] →
      ipdisp_network_send_frame w h t s d r =
        { state := s, clientsSent := 0, rescheduled := false,
          deliveries := [] }) ∧
    (s.clients ≠ [] →
      ((ipdisp_network_send_frame w h t s d r).rescheduled = true ↔
        (ipdisp_network_send_frame w h t s d r).clientsSent = 0)) := by
  constructor
  · intro h
    simp [ipdisp_network_send_frame, h]
  · intro h
    simp [ipdisp_network_send_frame, h]

/-- Witness for C5: the empty registry is untouched; one registry holding a
single dead client schedules the stream work again. -/
theorem broadcast_empty_noop_retrigger_witness :
    ipdisp_network_send_frame 4 4 0 (NetState.mk [] []) [9] (fun _ => -32) =
      { state := NetState.mk [] [], clientsSent := 0, rescheduled := false,
        deliveries := [] } ∧
    ((ipdisp_network_send_frame 4 4 0 (NetState.mk [⟨1, true⟩] []) [9]
        (fun _ => -32)).rescheduled = true ↔
      (ipdisp_network_send_frame 4 4 0 (NetState.mk [⟨1, true⟩] []) [9]
        (fun _ => -32)).clientsSent = 0) :=
  ⟨(broadcast_empty_noop_retrigger 4 4 0 [9] (fun _ => -32)
      (NetState.mk [] [])).1 rfl,
   (broadcast_empty_noop_retrigger 4 4 0 [9] (fun _ => -32)
      (NetState.mk [⟨1, true⟩] [])).2 (by decide)⟩

/-- C4: per-client transitions are one-way.  After any operation, an active
entry is either an entry that was already present (hence, by the other
conjuncts, already active) or the admission that operation performed; a
cleanup pass removes exactly the entries with active == false and releases
their sockets; and a broadcast cycle keeps an entry untouched unless it was
active and its send failed or was short, in which case the entry reappears
with active == false.  No operation turns an existing inactive entry active
again. -/
theorem client_transitions_one_way :
    (∀ (op : NetOp) (s : NetState) (c : Client),
      c ∈ (applyOp op s).clients → c.active = true →
      c ∈ s.clients ∨
        ∃ sid peerOk allocOk greetRet,
          op = NetOp.accept sid peerOk allocOk greetRet ∧
          c = { sockId := sid, active := true }) ∧
    (∀ s : NetState,
      (ipdisp_network_cleanup_clients s).clients =
        s.clients.filter (fun c => c.active) ∧
      ∀ c ∈ s.clients, c.active = false →
        c.sockId ∈ (ipdisp_network_cleanup_clients s).released) ∧
    (∀ (w h t : Nat) (d : List Nat) (r : Nat → Int) (s : NetState)
      (c : Client), c ∈ s.clients →
      (c.active = false →
        c ∈ (ipdisp_network_send_frame w h t s d r).state.clients) ∧
      (c.active = true → r c.sockId = ((frameBytes w h t d).length : Int) →
        c ∈ (ipdisp_network_send_frame w h t s d r).state.clients) ∧
      (c.active = true → r c.sockId ≠ ((frameBytes w h t d).length : Int) →
        { c with active := false } ∈
          (ipdisp_network_send_frame w h t s d r).state.clients)) := by
  refine ⟨?_, ?_, ?_⟩
  · intro op s c hc hact
    cases op with
    | accept sid p a g =>
      simp only [applyOp, acceptIteration] at hc
      split_ifs at hc with h1 h2 h3
      · exact Or.inl hc
      · exact Or.inl hc
      · exact Or.inl hc
      · simp only [ipdisp_network_cleanup_clients] at hc
        rcases List.mem_append.1 (List.mem_filter.1 hc).1 with h | h
        · exact Or.inl h
        · right
          refine ⟨sid, p, a, g, rfl, ?_⟩
          simpa using h
    | sendFrame w h t d r =>
      by_cases hne : s.clients = []
      · simp only [ipdisp_network_send_frame, if_pos hne, applyOp] at hc
        exact Or.inl hc
      · simp only [ipdisp_network_send_frame, if_neg hne, applyOp] at hc
        obtain ⟨c0, hc0, heq⟩ := List.mem_map.1 hc
        left
        by_cases h0 : c0.active
        · by_cases hlt : r c0.sockId < 0
          · simp only [h0, hlt, Bool.not_true, if_false, if_true] at heq
            rw [← heq] at hact
            simp at hact
          · by_cases hne2 :
                r c0.sockId ≠ ((frameBytes w h t d).length : Int)
            · simp [h0, hlt, hne2] at heq
              rw [← heq] at hact
              simp at hact
            · simp [h0, hlt, hne2] at heq
              rwa [← heq]
        · simp [h0] at heq
          rwa [← heq]
    | cleanup =>
      simp only [applyOp, ipdisp_network_cleanup_clients] at hc
      exact Or.inl (List.mem_filter.1 hc).1
  · intro s
    refine ⟨rfl, fun c hcm hact => ?_⟩
    simp only [ipdisp_network_cleanup_clients]
    refine List.mem_append.2 (Or.inr (List.mem_map.2 ⟨c, ?_, rfl⟩))
    exact List.mem_filter.2 ⟨hcm, by simp [hact]⟩
  · intro w h t d r s c hc
    exact ⟨fun hact => sendFrame_mem_inactive_kept w h t d r s c hc hact,
      fun hact hsucc => sendFrame_mem_kept w h t d r s c hc hact hsucc,
      fun hact hfail => sendFrame_mem_demoted w h t d r s c hc hact hfail⟩

/-- Witness for C4: a surviving active client was present before cleanup;
cleanup releases the socket of an inactive client; a failed send demotes an
active client. -/
theorem client_transitions_one_way_witness :
    (Client.mk 1 true ∈ (NetState.mk [⟨1, true⟩] []).clients ∨
      ∃ sid peerOk allocOk greetRet,
        NetOp.cleanup = NetOp.accept sid peerOk allocOk greetRet ∧
        Client.mk 1 true = { sockId := sid, active := true }) ∧
    (2 : Nat) ∈
      (ipdisp_network_cleanup_clients (NetState.mk [⟨2, false⟩] [])).released ∧
    Client.mk 3 false ∈
      (ipdisp_network_send_frame 4 4 0 (NetState.mk [⟨3, true⟩] []) [9]
        (fun _ => -1)).state.clients :=
  ⟨client_transitions_one_way.1 NetOp.cleanup (NetState.mk [⟨1, true⟩] [])
      ⟨1, true⟩ (by decide) (by decide),
   (client_transitions_one_way.2.1 (NetState.mk [⟨2, false⟩] [])).2
      ⟨2, false⟩ (by decide) (by decide),
   (client_transitions_one_way.2.2 4 4 0 [9] (fun _ => -1)
      (NetState.mk [⟨3, true⟩] []) ⟨3, true⟩ (by decide)).2.2 (by decide)
      (by decide)⟩

/-- C7: when admission succeeded but the greeting send fails, the client
stays registered and active, the greeting was addressed to it, and the
post-state is the same whatever the greeting outcome was — the failure is
only logged, never acted on. -/
theorem greeting_failure_keeps_admission (s : NetState) (sid : Nat)
    (w h t : Nat) (greetRet : Int)
    (hroom : activeCount s.clients < IPDISP_MAX_CLIENTS)
    (hfail : ipdisp_network_send_display_info w h t greetRet ≠ 0) :
    (acceptIteration s sid true true greetRet).greetedTo = some sid ∧
    Client.mk sid true ∈
      (acceptIteration s sid true true greetRet).state.clients ∧
    ∀ g2 : Int, (acceptIteration s sid true true g2).state =
      (acceptIteration s sid true true greetRet).state := by
  have hnotfull : ¬ IPDISP_MAX_CLIENTS ≤ activeCount s.clients := by omega
  refine ⟨?_, ?_, fun g2 => rfl⟩
  · simp [acceptIteration, hnotfull]
  · simp [acceptIteration, hnotfull, ipdisp_network_cleanup_clients]

/-- Witness for C7: an admitted client whose greeting send returned -32
(connection reset before the header went out) is still registered. -/
theorem greeting_failure_keeps_admission_witness :
    (acceptIteration (NetState.mk [] []) 7 true true (-32)).greetedTo =
      some 7 ∧
    Client.mk 7 true ∈
      (acceptIteration (NetState.mk [] []) 7 true true (-32)).state.clients ∧
    (acceptIteration (NetState.mk [] []) 7 true true 0).state =
      (acceptIteration (NetState.mk [] []) 7 true true (-32)).state :=
  ⟨(greeting_failure_keeps_admission (NetState.mk [] []) 7 1920 1080 0 (-32)
      (by decide) (by decide)).1,
   (greeting_failure_keeps_admission (NetState.mk [] []) 7 1920 1080 0 (-32)
      (by decide) (by decide)).2.1,
   (greeting_failure_keeps_admission (NetState.mk [] []) 7 1920 1080 0 (-32)
      (by decide) (by decide)).2.2 0⟩

/-- C10: when kernel_getpeername fails on a freshly accepted connection, the
accept loop releases that socket and does nothing else: the registry is
untouched and no greeting is sent. -/
theorem peername_failure_not_admitted (s : NetState) (sid : Nat)
    (allocOk : Bool) (greetRet : Int) :
    acceptIteration s sid false allocOk greetRet =
      { state := { s with released := s.released ++ [sid] },
        greetedTo := none } := rfl

/-- C9: the pixel copy into the frame store transfers exactly
min(capacity, supplied size) bytes: the result still has the buffer's
length, its copied prefix comes from the source, the remainder of the
buffer is untouched, and the copied count exceeds neither buffer. -/
theorem pipe_update_copy_clamped (framebuffer src : List Nat) :
    (ipdisp_pipe_update framebuffer src).length = framebuffer.length ∧
    (ipdisp_pipe_update framebuffer src).take
        (min framebuffer.length src.length) =
      src.take (min framebuffer.length src.length) ∧
    (ipdisp_pipe_update framebuffer src).drop
        (min framebuffer.length src.length) =
      framebuffer.drop (min framebuffer.length src.length) ∧
    min framebuffer.length src.length ≤ src.length ∧
    min framebuffer.length src.length ≤ framebuffer.length := by
  have hlen : (src.take (min framebuffer.length src.length)).length =
      min framebuffer.length src.length := by
    rw [List.length_take]
    omega
  refine ⟨?_, ?_, ?_, min_le_right _ _, min_le_left _ _⟩
  · simp [ipdisp_pipe_update]
  · simp only [ipdisp_pipe_update]
    rw [List.take_left' hlen]
  · simp only [ipdisp_pipe_update]
    rw [List.drop_left' hlen]

end Ipdisp
